import Mathlib

/-! Verification of the cabide-ai fashion engine core.

Shallow embedding of `src/engine.py` (class `FashionEngine`): garment-type
normalization, template loading, prompt assembly, model-response extraction
and output-filename derivation, together with theorems settling the frozen
claims about this code.

Conventions of the embedding:
* Python strings are Lean `String`s; `None`-able arguments are `Option String`.
* Python truthiness of a string value (`if s:`) is `strTruthy`: `none` and
  `some ""` are falsy.
* `str.lower()` is modelled by `pyLower`, which lowercases the ASCII range and
  the Latin-1 uppercase range (covers every character used by this code base).
* The external Gemini call is modelled by passing the `ModelResponse` the
  model would return as an explicit argument; the two draws
  `random.choice(settings.environments)` / `random.choice(settings.activities)`
  are passed as explicit arguments `randEnv` / `randAct`.
* PIL image decoding and file I/O are external collaborators: an image is
  represented by its byte content (`List Nat`), opening files is assumed to
  succeed, and saving returns the derived filename.
-/

namespace Cabide

/-- Python `str.lower()` on one character: ASCII `A`–`Z` and the Latin-1
uppercase range `À`–`Þ` (except `×`) are shifted to lowercase, everything
else is unchanged. -/
def pyCharLower (c : Char) : Char :=
  let n := c.toNat
  if 65 ≤ n ∧ n ≤ 90 then Char.ofNat (n + 32)
  else if 192 ≤ n ∧ n ≤ 222 ∧ n ≠ 215 then Char.ofNat (n + 32)
  else c

/-- Python `str.lower()`. -/
def pyLower (s : String) : String := String.mk (s.toList.map pyCharLower)

/-- Python truthiness of an optional string: `None` and `""` are falsy. -/
def strTruthy : Option String → Bool
  | none => false
  | some s => !(s == "")

/-- Python `a or b` for an optional string `a` and a string `b`. -/
def orTruthy : Option String → String → String
  | none, d => d
  | some s, d => if s == "" then d else s

/-- How an optional string renders inside a Python f-string. -/
def optRepr : Option String → String
  | none => "None"
  | some s => s

/-- Holds (`= true`) iff the list `n` is a prefix of `h`. -/
def listPref : List Char → List Char → Bool
  | [], _ => true
  | _ :: _, [] => false
  | a :: as, b :: bs => a = b && listPref as bs

/-- Holds (`= true`) iff `n` occurs as a contiguous run inside `h`. -/
def listContains (needle : List Char) : List Char → Bool
  | [] => listPref needle []
  | c :: rest => listPref needle (c :: rest) || listContains needle rest

/-- Python `needle in hay` for strings. -/
def strContains (hay needle : String) : Bool :=
  listContains needle.toList hay.toList

/-- Index of the first occurrence of `needle` in the haystack, if any
(models `re.search` locating a literal). -/
def firstIdx (needle : List Char) : List Char → Option Nat
  | [] => if listPref needle [] then some 0 else none
  | c :: rest =>
    if listPref needle (c :: rest) then some 0
    else (firstIdx needle rest).map (· + 1)

/-- The chars of `h` strictly before the first occurrence of `needle`
(all of `h` when `needle` does not occur). -/
def takeUntilOcc (needle h : List Char) : List Char :=
  match firstIdx needle h with
  | some i => h.take i
  | none => h

/-- Split a character list on `/`. -/
def splitSlash : List Char → List (List Char)
  | [] => [[]]
  | c :: rest =>
    if c = '/' then [] :: splitSlash rest
    else
      match splitSlash rest with
      | [] => [[c]]
      | g :: gs => (c :: g) :: gs

/-- Model of `pathlib.Path(p).name`: the last non-empty `/`-separated component. -/
def pathName (p : String) : String :=
  ((((splitSlash p.toList).filter (fun c => c ≠ [])).getLast?).map String.mk).getD ""

/-- The whitespace set of Python `str.strip()` (ASCII part). -/
def isPySpace (c : Char) : Bool :=
  c = ' ' ∨ c = '\t' ∨ c = '\n' ∨ c = '\r' ∨ c = '\x0b' ∨ c = '\x0c'

/-- Python `str.strip()`. -/
def pyStrip (s : String) : String :=
  String.mk ((((s.toList.dropWhile isPySpace).reverse).dropWhile isPySpace).reverse)

/-- One fuel-indexed step list of Python `str.replace` (all non-overlapping
occurrences, left to right); the fuel is instantiated with the input length,
which always suffices because a match consumes at least one character. -/
def replaceFuel (pat repl : List Char) : Nat → List Char → List Char
  | _, [] => []
  | 0, l => l
  | fuel + 1, c :: rest =>
    if pat ≠ [] ∧ listPref pat (c :: rest) then
      repl ++ replaceFuel pat repl fuel ((c :: rest).drop pat.length)
    else c :: replaceFuel pat repl fuel rest

/-- Python `s.replace(pat, repl)`. -/
def pyReplace (s pat repl : String) : String :=
  String.mk (replaceFuel pat.toList repl.toList s.toList.length s.toList)

/-- Python `sep.join(parts)`. -/
def joinWith (sep : String) : List String → String
  | [] => ""
  | [x] => x
  | x :: y :: rest => x ++ sep ++ joinWith sep (y :: rest)

/-- The `TYPE_NORMALIZATION` dict of `engine.py` (French/Portuguese →
Portuguese), in source order. -/
def TYPE_NORMALIZATION : List (String × String) :=
  [("pantalon", "calca"),
   ("veste", "veste"),
   ("écharpe", "echarpe"),
   ("echarpe", "echarpe"),
   ("bracelete", "bracelete"),
   ("vestido de festa", "vestidodefesta"),
   ("vestidofesta", "vestidodefesta"),
   ("vestido", "vestido"),
   ("vestido com modelo", "vestidocommodelo"),
   ("saia", "saia"),
   ("calça", "calca"),
   ("calca", "calca"),
   ("camisa", "camisa"),
   ("blusa", "blusa"),
   ("colar", "colar"),
   ("sapato", "sapato"),
   ("chaussure", "sapato"),
   ("conjunto", "conjunto")]

/-- Model of `FashionEngine._normalize_garment_type`: falsy input yields `"piece"`,
otherwise table lookup on the lowercased input with lowercased passthrough. -/
def normalizeGarmentType (garment_type : Option String) : String :=
  if !strTruthy garment_type then "piece"
  else
    let l := pyLower (garment_type.getD "")
    (TYPE_NORMALIZATION.lookup l).getD l

/-- Template-name selection of `FashionEngine._load_template`. -/
def templateNameFor (filename : String) : String :=
  if filename == "conjunto" then "Virtual Model Conjunto"
  else if filename == "background_replacement" then "Background Replacement"
  else if strContains (pyLower filename) "vestidodefesta" then "Virtual Model Party"
  else "Virtual Model Quotidien"

/-- Model of `FashionEngine._load_template`, with the template file's content passed
explicitly. The regex `## Template: <name>\n(.*?)(?=\n##|$)` (DOTALL) anchors
at the first occurrence of the literal header and lazily captures until the
next `\n##` or the end of the document; `.strip()` is `String.trim` (the
`$`-before-final-newline subtlety of `re` is absorbed by the trim). Returns
`""` when the header does not occur. -/
def loadTemplate (filename content : String) : String :=
  let header := "## Template: " ++ templateNameFor filename ++ "\n"
  match firstIdx header.toList content.toList with
  | none => ""
  | some i =>
    pyStrip (String.mk (takeUntilOcc "\n##".toList ((content.toList).drop (i + header.length))))

example : pyLower "Calça" = "calça" := by decide
example : pyLower "VestidoDeFesta" = "vestidodefesta" := by decide
example : normalizeGarmentType (some "Saia") = "saia" := by decide
example : normalizeGarmentType (some "Calça") = "calca" := by decide
example : normalizeGarmentType (some "") = "piece" := by decide
example : normalizeGarmentType none = "piece" := by decide
example : strContains "abcdef" "cde" = true := by decide
example : strContains "abcdef" "cdf" = false := by decide
example : pathName "a/b/dress.jpg" = "dress.jpg" := by decide
example :
    loadTemplate "x.jpg"
      "## Template: Virtual Model Quotidien\nHello {{garment_type}}\n## Template: Other\nBye" =
    "Hello {{garment_type}}" := by decide
example : loadTemplate "x.jpg" "no sections here" = "" := by decide
example : pyReplace "a {{x}} b {{x}}" "{{x}}" "Q" = "a Q b Q" := by decide
example : joinWith ", " ["a", "b", "c"] = "a, b, c" := by decide
example : pyStrip "  hi there \n" = "hi there" := by decide

/-- The `conjunto_pieces` dict: the three recognized keys, each possibly
absent. A present key carries the piece-type string. -/
structure ConjuntoPieces where
  piece1_type : Option String := none
  piece2_type : Option String := none
  piece3_type : Option String := none
deriving DecidableEq, Repr

/-- Python truthiness of the optional `conjunto_pieces` dict: `None` and the
empty dict are falsy. -/
def cpTruthy : Option ConjuntoPieces → Bool
  | none => false
  | some p => p.piece1_type.isSome || p.piece2_type.isSome || p.piece3_type.isSome

/-- Access to a `conjunto_pieces` field as Python `dict.get(key, "")`. -/
def cpGet (cp : Option ConjuntoPieces) (f : ConjuntoPieces → Option String) : String :=
  (f (cp.getD {})).getD ""

/-- The conjunto-composition hint block of `generate_lifestyle_photo`
(lines 153–163 of `engine.py`): present only when `garment_type` lowercases
to `"conjunto"` and `conjunto_pieces` is truthy. -/
def conjuntoHint (garment_type : Option String) (conjunto_pieces : Option ConjuntoPieces) :
    String :=
  if strTruthy garment_type && pyLower (garment_type.getD "") == "conjunto"
      && cpTruthy conjunto_pieces then
    let piece1 := cpGet conjunto_pieces (·.piece1_type)
    let piece2 := cpGet conjunto_pieces (·.piece2_type)
    let piece3 := cpGet conjunto_pieces (·.piece3_type)
    let base := "\n\nCONJUNTO COMPOSITION: Image 1 = " ++ piece1 ++ ", Image 2 = " ++ piece2
    let withP3 := if piece3 ≠ "" then base ++ ", Image 3 = " ++ piece3 else base
    withP3 ++
      ". You must combine ALL these separate garment pieces into ONE coordinated outfit on the model."
  else ""

/-- The two-image front/back note appended for `position` in
`["ambos", "both"]`. -/
def bothNote : String :=
  "\n\nNote: Image 1 shows the front view, Image 2 shows the back view."

/-- The position-hint block of `generate_lifestyle_photo` (lines 165–178):
skipped entirely when a conjunto hint is present; for more than one image it
is `bothNote` for `"ambos"`/`"both"` only; for exactly one image the map
`{"frente": "front view", "costas": "back view"}` drives the single-image
note, with unmapped positions yielding no note. -/
def positionHint (conjunto_hint : String) (position : Option String) (nimages : Nat) :
    String :=
  if conjunto_hint ≠ "" then ""
  else if strTruthy position ∧ nimages > 1 then
    if pyLower (position.getD "") = "ambos" ∨ pyLower (position.getD "") = "both" then
      bothNote
    else ""
  else if strTruthy position ∧ nimages = 1 then
    let view :=
      (([("frente", "front view"), ("costas", "back view")] : List (String × String)).lookup
        (pyLower (position.getD ""))).getD ""
    if view ≠ "" then "\n\nNote: The image shows the " ++ view ++ " of the garment." else ""
  else ""

/-- The `attr_mapping` dict of `generate_lifestyle_photo` (Portuguese display
labels → English phrases), in source order. -/
def attrMapping : List (String × String) :=
  [("Baixa", "short height"),
   ("Média", "average height"),
   ("Alta", "tall height"),
   ("Esguia", "slender body type"),
   ("Plus Size", "plus size body type"),
   ("Pele Clara", "fair skin tone"),
   ("Pele Média", "medium skin tone"),
   ("Pele Morena", "tan skin tone"),
   ("Pele Escura", "dark skin tone"),
   ("Pele Negra", "black skin tone"),
   ("Curto", "short hair"),
   ("Médio", "medium-length hair"),
   ("Longo", "long hair"),
   ("Liso", "straight hair"),
   ("Ondulado", "wavy hair"),
   ("Cacheado", "curly hair"),
   ("Crespo", "coily/kinky hair"),
   ("Loiro", "blonde hair"),
   ("Castanho", "brown hair"),
   ("Ruivo", "red hair"),
   ("Preto", "black hair"),
   ("Grisalho", "gray hair"),
   ("Solto", "hair down"),
   ("Preso", "hair tied up"),
   ("Coque", "hair in a bun"),
   ("Rabo de Cavalo", "hair in a ponytail")]

/-- The model-attributes hint block (lines 180–221). The dict is modelled as
an association list in insertion order; only truthy values contribute, mapped
through `attrMapping` with lowercased passthrough. -/
def modelHint : Option (List (String × String)) → String
  | none => ""
  | some attrs =>
    if attrs = [] then ""
    else
      let attr_parts := attrs.filterMap fun kv =>
        if kv.2 ≠ "" then some ((attrMapping.lookup kv.2).getD (pyLower kv.2)) else none
      if attr_parts ≠ [] then
        "\n\nMODEL ATTRIBUTES: " ++ joinWith ", " attr_parts ++ "."
      else ""

/-- The user-feedback instruction block (lines 226–232); the conjunto
variant is chosen by truthiness of `conjunto_pieces` alone. -/
def feedbackBlock (conjunto_pieces : Option ConjuntoPieces) (feedback : Option String) :
    String :=
  if strTruthy feedback then
    if cpTruthy conjunto_pieces then
      "\n\nUSER FEEDBACK FOR IMPROVEMENT: " ++ feedback.getD "" ++
        "\nIMPORTANT: Generate ONE SINGLE PERSON wearing ALL the garment pieces shown (upper piece, lower piece, and shoes if provided) in a complete outfit. Incorporate the feedback while maintaining garment fidelity and quality."
    else
      "\n\nUSER FEEDBACK FOR IMPROVEMENT: " ++ feedback.getD "" ++
        "\nPlease incorporate this feedback while maintaining all other quality requirements and garment fidelity."
  else ""

/-- Environment/activity resolution (lines 128–138): caller value if truthy,
else the random draw; overridden to the gala literals when the reference
filename contains `"vestidodefesta"` (case-insensitively) and no truthy
`environment` was supplied. `randEnv`/`randAct` stand for the draws
`random.choice(settings.environments)` / `random.choice(settings.activities)`. -/
def resolveEnvAct (ref_filename : String) (environment activity : Option String)
    (randEnv randAct : String) : String × String :=
  let final_env := orTruthy environment randEnv
  let final_act := orTruthy activity randAct
  if strContains (pyLower ref_filename) "vestidodefesta" && !strTruthy environment then
    ("a gala ballroom", "holding a champagne glass")
  else
    (final_env, final_act)

/-- The assembled prompt of `generate_lifestyle_photo` (lines 128–232):
template selection, placeholder substitution, then the conjunto, position,
model-attribute and feedback blocks in source order. -/
def buildFinalPrompt (ref_filename : String) (garment_type : Option String)
    (environment activity position : Option String)
    (conjunto_pieces : Option ConjuntoPieces)
    (model_attributes : Option (List (String × String))) (feedback : Option String)
    (nimages : Nat) (randEnv randAct : String) (templates : String) : String :=
  let resolved := resolveEnvAct ref_filename environment activity randEnv randAct
  let normalized_type :=
    if strTruthy garment_type then normalizeGarmentType garment_type else "garment"
  let raw_template :=
    if strTruthy garment_type && pyLower (garment_type.getD "") == "conjunto" then
      loadTemplate "conjunto" templates
    else if strTruthy garment_type && pyLower (garment_type.getD "") == "vestido com modelo" then
      loadTemplate "background_replacement" templates
    else
      loadTemplate ref_filename templates
  let formatted_prompt :=
    pyReplace (pyReplace (pyReplace raw_template "{{environment}}" resolved.1)
      "{{activity}}" resolved.2) "{{garment_type}}" normalized_type
  let conjunto_hint := conjuntoHint garment_type conjunto_pieces
  let position_hint := positionHint conjunto_hint position nimages
  let model_hint := modelHint model_attributes
  formatted_prompt ++ conjunto_hint ++ position_hint ++ model_hint ++
    feedbackBlock conjunto_pieces feedback

example :
    conjuntoHint (some "Conjunto") (some { piece1_type := some "Camisa", piece2_type := some "Calça" }) =
    "\n\nCONJUNTO COMPOSITION: Image 1 = Camisa, Image 2 = Calça. You must combine ALL these separate garment pieces into ONE coordinated outfit on the model." := by
  decide

example : positionHint "" (some "Frente") 1 =
    "\n\nNote: The image shows the front view of the garment." := by decide
example : positionHint "" (some "front") 1 = "" := by decide
example : positionHint "" (some "Both") 2 = bothNote := by decide
example : positionHint "" (some "frente") 2 = "" := by decide
example : positionHint "x" (some "ambos") 2 = "" := by decide
example : modelHint (some [("height", "Alta"), ("hair_color", ""), ("x", "Weird")]) =
    "\n\nMODEL ATTRIBUTES: tall height, weird." := by decide
example : resolveEnvAct "VestidoDeFesta_3.jpg" none (some "dancing") "beach" "surfing" =
    ("a gala ballroom", "holding a champagne glass") := by decide
example : resolveEnvAct "dress.jpg" none (some "dancing") "beach" "surfing" =
    ("beach", "dancing") := by decide

/-! ## Base64 (model of the `base64.b64decode` / `b64encode` library calls)

Bytes are `Nat`s below 256; sextets are `Nat`s below 64. The decoder accepts
well-formed padded base64 and yields `none` on malformed input (where the
library raises `binascii.Error`). -/

/-- The standard base64 alphabet, sextet value → character. -/
def b64Alphabet (n : Nat) : Char :=
  if n < 26 then Char.ofNat (65 + n)
  else if n < 52 then Char.ofNat (97 + (n - 26))
  else if n < 62 then Char.ofNat (48 + (n - 52))
  else if n = 62 then '+'
  else '/'

/-- Character → sextet value, `none` off the alphabet. -/
def b64CharVal (c : Char) : Option Nat :=
  if 'A' ≤ c ∧ c ≤ 'Z' then some (c.toNat - 65)
  else if 'a' ≤ c ∧ c ≤ 'z' then some (c.toNat - 97 + 26)
  else if '0' ≤ c ∧ c ≤ '9' then some (c.toNat - 48 + 52)
  else if c = '+' then some 62
  else if c = '/' then some 63
  else none

/-- Base64-encode a byte list, three bytes to four characters with `=`
padding. -/
def base64EncodeList : List Nat → List Char
  | [] => []
  | [a] => [b64Alphabet (a / 4), b64Alphabet (a % 4 * 16), '=', '=']
  | [a, b] => [b64Alphabet (a / 4), b64Alphabet (a % 4 * 16 + b / 16),
               b64Alphabet (b % 16 * 4), '=']
  | a :: b :: c :: rest =>
    b64Alphabet (a / 4) :: b64Alphabet (a % 4 * 16 + b / 16) ::
      b64Alphabet (b % 16 * 4 + c / 64) :: b64Alphabet (c % 64) ::
        base64EncodeList rest

/-- Base64-decode a character list, `none` on malformed input. -/
def base64DecodeList : List Char → Option (List Nat)
  | [] => some []
  | c1 :: c2 :: c3 :: c4 :: rest =>
    match b64CharVal c1, b64CharVal c2 with
    | some s1, some s2 =>
      if c3 = '=' then
        if c4 = '=' ∧ rest = [] then some [s1 * 4 + s2 / 16] else none
      else
        match b64CharVal c3 with
        | some s3 =>
          if c4 = '=' then
            if rest = [] then some [s1 * 4 + s2 / 16, s2 % 16 * 16 + s3 / 4] else none
          else
            match b64CharVal c4 with
            | some s4 =>
              (base64DecodeList rest).map
                (fun tl => (s1 * 4 + s2 / 16) :: (s2 % 16 * 16 + s3 / 4) :: (s3 % 4 * 64 + s4) :: tl)
            | none => none
        | none => none
    | _, _ => none
  | _ => none

/-- Model of `base64.b64encode` producing a string. -/
def base64Encode (d : List Nat) : String := String.mk (base64EncodeList d)

/-- Model of `base64.b64decode` on a string. -/
def base64Decode (s : String) : Option (List Nat) := base64DecodeList s.toList

example : base64Encode [77, 97, 110] = "TWFu" := by decide
example : base64Decode "TWFu" = some [77, 97, 110] := by decide
example : base64Encode [77, 97] = "TWE=" := by decide
example : base64Decode "TWE=" = some [77, 97] := by decide
example : base64Encode [77] = "TQ==" := by decide
example : base64Decode "TQ==" = some [77] := by decide
example : base64Decode "T***" = none := by decide

/-! ## Model response shapes and extraction (lines 245–305) -/

/-- The three forms the SDK delivers `part.inline_data.data` in: raw bytes,
a base64-encoded string, or a protobuf byte-like object coercible with
`bytes(...)`. -/
inductive DataPayload
  | raw (b : List Nat)
  | b64 (s : String)
  | bytelike (b : List Nat)
deriving DecidableEq, Repr

/-- Model of `part.inline_data`. -/
structure InlineData where
  mime_type : String := "unknown"
  data : DataPayload
deriving DecidableEq, Repr

/-- One part of a candidate's content; `inline_data` may be absent/falsy. -/
structure Part where
  inline_data : Option InlineData := none
deriving DecidableEq, Repr

/-- Model of `candidate.content`. -/
structure CandContent where
  parts : List Part := []
deriving DecidableEq, Repr

/-- One response candidate: a legacy direct `image` attribute (the decoded
bitmap, by content) or parts-based inline data. -/
structure Candidate where
  image : Option (List Nat) := none
  content : CandContent := {}
deriving DecidableEq, Repr

/-- The model response: a list of candidates. -/
structure ModelResponse where
  candidates : List Candidate := []
deriving DecidableEq, Repr

instance {ε α : Type} [DecidableEq ε] [DecidableEq α] : DecidableEq (Except ε α) := fun
  | .error e, .error f =>
    if h : e = f then .isTrue (by rw [h])
    else .isFalse (by intro hh; cases hh; exact h rfl)
  | .error _, .ok _ => .isFalse (by intro h; cases h)
  | .ok _, .error _ => .isFalse (by intro h; cases h)
  | .ok a, .ok b =>
    if h : a = b then .isTrue (by rw [h])
    else .isFalse (by intro hh; cases hh; exact h rfl)

/-- The three decoding branches of lines 268–277: bytes pass through, a
string is base64-decoded, anything else is coerced with `bytes(...)`. -/
def decodePayload : DataPayload → Option (List Nat)
  | .raw b => some b
  | .b64 s => base64Decode s
  | .bytelike b => some b

/-- The `for part in candidate.content.parts` loop: the first part with
truthy `inline_data` is processed and the loop breaks. -/
def firstInlineData : List Part → Option InlineData
  | [] => none
  | p :: ps =>
    match p.inline_data with
    | some d => some d
    | none => firstInlineData ps

/-- Message of the no-candidates `ValueError` (line 250). -/
def noCandidatesMsg : String :=
  "Gemini returned no candidates. Response may have been blocked."

/-- Message of the no-image `ValueError` (lines 287–290 and 294–297; the two
adjacent source string literals concatenate). -/
def noImageMsg : String :=
  "Gemini did not return an image. This may be due to safety filters or content policy violations."

/-- Response validation and image extraction (lines 247–297), as run inside
the `try` block: the bitmap content on success, the raised error's message on
failure. Decoding failure of a base64 string models the `binascii.Error` the
library raises there. -/
def extractImage (resp : ModelResponse) : Except String (List Nat) :=
  match resp.candidates with
  | [] => .error noCandidatesMsg
  | cand :: _ =>
    match cand.image with
    | some img => .ok img
    | none =>
      match cand.content.parts with
      | [] => .error noImageMsg
      | p :: ps =>
        match firstInlineData (p :: ps) with
        | none => .error noImageMsg
        | some idata =>
          match decodePayload idata.data with
          | some bytes => .ok bytes
          | none => .error "Invalid base64-encoded string"

example : extractImage {} = .error noCandidatesMsg := by decide
example : extractImage { candidates := [{ image := some [9, 9] }] } = .ok [9, 9] := by decide
example :
    extractImage { candidates := [{ content := { parts :=
      [{}, { inline_data := some { data := .raw [1, 2] } }] } }] } = .ok [1, 2] := by decide
example :
    extractImage { candidates := [{ content := { parts := [{}] } }] } =
    .error noImageMsg := by decide

/-! ## Output filename (lines 307–333) -/

/-- Output-filename derivation from garment metadata, reached only with
truthy `garment_number` and `garment_type`. -/
def buildOutputFilename (garment_number garment_type : String)
    (conjunto_pieces : Option ConjuntoPieces) : String :=
  if pyLower garment_type == "conjunto" && cpTruthy conjunto_pieces then
    let piece1 := normalizeGarmentType (some (cpGet conjunto_pieces (·.piece1_type)))
    let piece2 := normalizeGarmentType (some (cpGet conjunto_pieces (·.piece2_type)))
    let piece3 := (conjunto_pieces.getD {}).piece3_type
    let base := "cabide_conjunto_" ++ garment_number ++ "-" ++ piece1 ++
      "-" ++ garment_number ++ "-" ++ piece2
    let withP3 :=
      if strTruthy piece3 then
        base ++ "-" ++ garment_number ++ "-" ++ normalizeGarmentType piece3
      else base
    withP3 ++ ".png"
  else
    "cabide_" ++ garment_number ++ "_" ++ normalizeGarmentType (some garment_type) ++ ".png"

example : buildOutputFilename "42" "Saia" none = "cabide_42_saia.png" := by decide
example :
    buildOutputFilename "7" "conjunto"
      (some { piece1_type := some "Camisa", piece2_type := some "Calça" }) =
    "cabide_conjunto_7-camisa-7-calca.png" := by decide

/-! ## The full `generate_lifestyle_photo` pipeline -/

/-- One element of the `garment_path` argument: a filesystem path or a
file-like object (`BytesIO`). -/
inductive PathOrBlob
  | path (p : String)
  | blob
deriving DecidableEq, Repr

/-- The keyword arguments of `generate_lifestyle_photo`. -/
structure GenInput where
  garment_path : List PathOrBlob
  environment : Option String := none
  activity : Option String := none
  garment_number : Option String := none
  garment_type : Option String := none
  position : Option String := none
  conjunto_pieces : Option ConjuntoPieces := none
  model_attributes : Option (List (String × String)) := none
  feedback : Option String := none

/-- Kind of a raised Python exception. -/
inductive ExcKind
  | valueError
  | runtimeError
  | indexError
deriving DecidableEq, Repr

/-- A raised Python exception: kind and message. -/
structure PyExc where
  kind : ExcKind
  msg : String
deriving DecidableEq, Repr

/-- Observable outcome of one `generate_lifestyle_photo` call:
whether `self.model.generate_content` was reached (and with which prompt),
and the returned path or the escaping exception. -/
structure GenOutcome where
  modelCalled : Bool
  promptSent : Option String
  result : Except PyExc String
deriving DecidableEq

/-- Model of `FashionEngine.generate_lifestyle_photo`, with the random draws, the
template-file content and the model's response passed explicitly. Image
opening and saving are external I/O and assumed to succeed; the success
value is the derived output filename. -/
def generate_lifestyle_photo (inp : GenInput) (randEnv randAct : String)
    (templates : String) (resp : ModelResponse) : GenOutcome :=
  match inp.garment_path with
  | [] =>
    { modelCalled := false, promptSent := none,
      result := .error { kind := .indexError, msg := "list index out of range" } }
  | p0 :: rest =>
    let nimages := rest.length + 1
    let ref_filename :=
      match p0 with
      | .path p => pathName p
      | .blob => "garment.jpg"
    let final_prompt := buildFinalPrompt ref_filename inp.garment_type inp.environment
      inp.activity inp.position inp.conjunto_pieces inp.model_attributes inp.feedback
      nimages randEnv randAct templates
    match extractImage resp with
    | .error m =>
      { modelCalled := true, promptSent := some final_prompt,
        result := .error { kind := .runtimeError, msg := "Failed to generate image: " ++ m } }
    | .ok _ =>
      if !strTruthy inp.garment_number || !strTruthy inp.garment_type then
        let msg := "Both garment_number and garment_type are required. Got: garment_number=" ++
          optRepr inp.garment_number ++ ", garment_type=" ++ optRepr inp.garment_type
        { modelCalled := true, promptSent := some final_prompt,
          result := .error { kind := .valueError, msg := msg } }
      else
        { modelCalled := true, promptSent := some final_prompt,
          result := .ok (buildOutputFilename (inp.garment_number.getD "")
            (inp.garment_type.getD "") inp.conjunto_pieces) }

example :
    (generate_lifestyle_photo
      { garment_path := [.path "saia01.jpg"], garment_number := some "42",
        garment_type := some "Saia" }
      "a park" "walking" "## Template: Virtual Model Quotidien\nA model in {{environment}}, {{activity}}, wearing {{garment_type}}.\n"
      { candidates := [{ image := some [1] }] }).result = .ok "cabide_42_saia.png" := by
  decide

example :
    (generate_lifestyle_photo
      { garment_path := [.path "saia01.jpg"], garment_type := some "Saia" }
      "a park" "walking" ""
      { candidates := [{ image := some [1] }] }) =
    { modelCalled := true, promptSent := some "",
      result := .error { kind := .valueError, msg := "Both garment_number and garment_type are required. Got: garment_number=None, garment_type=Saia" } } := by
  decide

/-! ## Helper lemmas -/

theorem listPref_append_self (n t : List Char) : listPref n (n ++ t) = true := by
  induction n with
  | nil => rfl
  | cons a as ih => simp [listPref, ih]

theorem listPref_self (n : List Char) : listPref n n = true := by
  have h := listPref_append_self n []
  simpa using h

theorem listPref_mono {n s : List Char} (t : List Char) (h : listPref n s = true) :
    listPref n (s ++ t) = true := by
  induction n generalizing s with
  | nil => rfl
  | cons a as ih =>
    cases s with
    | nil => cases h
    | cons b bs =>
      simp only [listPref, Bool.and_eq_true, decide_eq_true_eq] at h
      simp [listPref, h.1, ih h.2]

theorem listContains_of_pref {n h : List Char} (hp : listPref n h = true) :
    listContains n h = true := by
  cases h with
  | nil => simpa [listContains] using hp
  | cons c cs => simp [listContains, hp]

theorem listContains_mono_left (s : List Char) {n t : List Char}
    (h : listContains n t = true) : listContains n (s ++ t) = true := by
  induction s with
  | nil => simpa using h
  | cons c cs ih => simp [listContains, ih]

theorem listContains_mono_right {n s : List Char} (t : List Char)
    (h : listContains n s = true) : listContains n (s ++ t) = true := by
  induction s with
  | nil =>
    cases n with
    | nil =>
      cases t with
      | nil => simpa using h
      | cons c cs => simp [listContains, listPref]
    | cons a as => cases h
  | cons c cs ih =>
    simp only [listContains, Bool.or_eq_true] at h
    rcases h with h | h
    · exact listContains_of_pref (listPref_mono t h)
    · simp [listContains, ih h]

theorem strToList_append (a b : String) : (a ++ b).toList = a.toList ++ b.toList :=
  String.data_append a b

theorem strContains_mono_left (a : String) {b n : String}
    (h : strContains b n = true) : strContains (a ++ b) n = true := by
  unfold strContains at *
  rw [strToList_append]
  exact listContains_mono_left _ h

theorem strContains_mono_right {a : String} (b : String)
    (h : strContains a n = true) : strContains (a ++ b) n = true := by
  unfold strContains at *
  rw [strToList_append]
  exact listContains_mono_right _ h

theorem strContains_append_self_right (t n : String) : strContains (t ++ n) n = true := by
  unfold strContains
  rw [strToList_append]
  exact listContains_mono_left _ (listContains_of_pref (listPref_self n.toList))

theorem strContains_append_self_left (n t : String) : strContains (n ++ t) n = true := by
  unfold strContains
  rw [strToList_append]
  exact listContains_mono_right _ (listContains_of_pref (listPref_self n.toList))

theorem append_ne_empty_right (a b : String) (hb : b ≠ "") : a ++ b ≠ "" := by
  intro h
  apply hb
  have hd : a.data ++ b.data = [] := by
    have h2 := congrArg String.data h
    rwa [String.data_append] at h2
  rcases List.append_eq_nil.mp hd with ⟨-, h2⟩
  cases b with
  | mk d => cases h2; rfl

theorem mem_of_lookup_eq_some {β : Type} {k : String} {v : β} :
    ∀ {l : List (String × β)}, l.lookup k = some v → (k, v) ∈ l := by
  intro l
  induction l with
  | nil => intro h; cases h
  | cons p ps ih =>
    intro h
    cases p with
    | mk a b =>
      by_cases hk : k = a
      · subst hk
        simp only [List.lookup, beq_self_eq_true] at h
        cases h
        exact List.mem_cons_self _ _
      · have hbeq : (k == a) = false := by
          simpa using hk
        simp only [List.lookup, hbeq] at h
        exact List.mem_cons_of_mem _ (ih h)

theorem table_val_conjunto : ∀ p ∈ TYPE_NORMALIZATION, p.2 = "conjunto" → p.1 = "conjunto" := by
  decide

theorem normalize_some_eq (s : String) (hs : s ≠ "") :
    normalizeGarmentType (some s) = (TYPE_NORMALIZATION.lookup (pyLower s)).getD (pyLower s) := by
  have hbeq : (s == "") = false := by simpa using hs
  simp [normalizeGarmentType, strTruthy, hbeq]

theorem normalize_eq_conjunto_iff (s : String) (hs : s ≠ "") :
    normalizeGarmentType (some s) = "conjunto" ↔ pyLower s = "conjunto" := by
  rw [normalize_some_eq s hs]
  cases hl : TYPE_NORMALIZATION.lookup (pyLower s) with
  | none => simp
  | some v =>
    simp only [Option.getD_some]
    constructor
    · intro hv
      subst hv
      exact table_val_conjunto _ (mem_of_lookup_eq_some hl) rfl
    · intro hlow
      rw [hlow] at hl
      have : TYPE_NORMALIZATION.lookup "conjunto" = some "conjunto" := by decide
      rw [this] at hl
      exact (Option.some.inj hl).symm

/-- Elimination form: `normalizeGarmentType gt = "conjunto"` forces a truthy
argument whose lowercasing is `"conjunto"`. -/
theorem normalize_conjunto_elim {gt : Option String}
    (h : normalizeGarmentType gt = "conjunto") :
    strTruthy gt = true ∧ pyLower (gt.getD "") = "conjunto" := by
  cases gt with
  | none => exact absurd h (by decide)
  | some s =>
    by_cases hs : s = ""
    · subst hs
      exact absurd h (by decide)
    · have hbeq : (s == "") = false := by simpa using hs
      exact ⟨by simp [strTruthy, hbeq], (normalize_eq_conjunto_iff s hs).mp h⟩

/-- Converse: a truthy garment type lowercasing to `"conjunto"` normalizes to
`"conjunto"`. -/
theorem normalize_conjunto_intro {gt : Option String}
    (ht : strTruthy gt = true) (hl : pyLower (gt.getD "") = "conjunto") :
    normalizeGarmentType gt = "conjunto" := by
  cases gt with
  | none => cases ht
  | some s =>
    by_cases hs : s = ""
    · subst hs; cases ht
    · exact (normalize_eq_conjunto_iff s hs).mpr hl

/-- When the garment type does not normalize to `"conjunto"`, no conjunto
hint is produced. -/
theorem conjuntoHint_eq_empty {gt : Option String} (cp : Option ConjuntoPieces)
    (h : normalizeGarmentType gt ≠ "conjunto") : conjuntoHint gt cp = "" := by
  unfold conjuntoHint
  cases hc : (strTruthy gt && pyLower (gt.getD "") == "conjunto" && cpTruthy cp) with
  | false => simp [hc]
  | true =>
    simp only [Bool.and_eq_true, beq_iff_eq] at hc
    exact absurd (normalize_conjunto_intro hc.1.1 hc.1.2) h

theorem b64CharVal_alphabet : ∀ n : Fin 64, b64CharVal (b64Alphabet n.val) = some n.val := by
  decide

theorem b64Alphabet_ne_pad : ∀ n : Fin 64, b64Alphabet n.val ≠ '=' := by
  decide

theorem b64CharVal_of_lt {n : Nat} (h : n < 64) : b64CharVal (b64Alphabet n) = some n :=
  b64CharVal_alphabet ⟨n, h⟩

theorem b64Alphabet_ne_pad_of_lt {n : Nat} (h : n < 64) : b64Alphabet n ≠ '=' :=
  b64Alphabet_ne_pad ⟨n, h⟩

theorem base64_roundtrip_aux :
    ∀ (fuel : Nat) (d : List Nat), d.length ≤ fuel → (∀ x ∈ d, x < 256) →
      base64DecodeList (base64EncodeList d) = some d := by
  intro fuel
  induction fuel with
  | zero =>
    intro d hlen _
    cases d with
    | nil => rfl
    | cons a as => simp at hlen
  | succ m ih =>
    intro d hlen hb
    match d with
    | [] => rfl
    | [a] =>
      have ha : a < 256 := hb a (by simp)
      have h1 : a / 4 < 64 := by omega
      have h2 : a % 4 * 16 < 64 := by omega
      simp [base64EncodeList, base64DecodeList, b64CharVal_of_lt h1, b64CharVal_of_lt h2]
      omega
    | [a, b] =>
      have ha : a < 256 := hb a (by simp)
      have hbb : b < 256 := hb b (by simp)
      have h1 : a / 4 < 64 := by omega
      have h2 : a % 4 * 16 + b / 16 < 64 := by omega
      have h3 : b % 16 * 4 < 64 := by omega
      simp [base64EncodeList, base64DecodeList, b64CharVal_of_lt h1, b64CharVal_of_lt h2,
        b64CharVal_of_lt h3, b64Alphabet_ne_pad_of_lt h3]
      omega
    | a :: b :: c :: rest =>
      have ha : a < 256 := hb a (by simp)
      have hbb : b < 256 := hb b (by simp)
      have hc : c < 256 := hb c (by simp)
      have h1 : a / 4 < 64 := by omega
      have h2 : a % 4 * 16 + b / 16 < 64 := by omega
      have h3 : b % 16 * 4 + c / 64 < 64 := by omega
      have h4 : c % 64 < 64 := by omega
      have hrest : base64DecodeList (base64EncodeList rest) = some rest := by
        apply ih rest
        · simp only [List.length_cons] at hlen
          omega
        · intro x hx
          exact hb x (by simp [hx])
      simp [base64EncodeList, base64DecodeList, b64CharVal_of_lt h1, b64CharVal_of_lt h2,
        b64CharVal_of_lt h3, b64CharVal_of_lt h4, b64Alphabet_ne_pad_of_lt h3,
        b64Alphabet_ne_pad_of_lt h4, hrest]
      omega

/-- Decoding after encoding is the identity on byte lists. -/
theorem base64_decode_encode (d : List Nat) (h : ∀ x ∈ d, x < 256) :
    base64Decode (base64Encode d) = some d :=
  base64_roundtrip_aux d.length d le_rfl h

theorem listContains_nil_needle : ∀ h : List Char, listContains [] h = true := by
  intro h
  cases h <;> simp [listContains, listPref]

theorem strContains_empty_needle (hay : String) : strContains hay "" = true :=
  listContains_nil_needle hay.toList

/-- Shape of the conjunto hint when its guard holds. -/
theorem conjuntoHint_eq (gt : Option String) (cp : ConjuntoPieces)
    (ht : strTruthy gt = true) (hl : pyLower (gt.getD "") = "conjunto")
    (hcp : cpTruthy (some cp) = true) :
    conjuntoHint gt (some cp) =
      (if cpGet (some cp) (·.piece3_type) ≠ "" then
        "\n\nCONJUNTO COMPOSITION: Image 1 = " ++ cpGet (some cp) (·.piece1_type) ++
          ", Image 2 = " ++ cpGet (some cp) (·.piece2_type) ++ ", Image 3 = " ++
          cpGet (some cp) (·.piece3_type)
      else
        "\n\nCONJUNTO COMPOSITION: Image 1 = " ++ cpGet (some cp) (·.piece1_type) ++
          ", Image 2 = " ++ cpGet (some cp) (·.piece2_type)) ++
      ". You must combine ALL these separate garment pieces into ONE coordinated outfit on the model." := by
  simp [conjuntoHint, ht, hl, hcp]

/-- The position hint for more than one image and no conjunto hint. -/
theorem positionHint_multi (pos : Option String) (nimages : Nat) (him : 1 < nimages) :
    positionHint "" pos nimages =
      if strTruthy pos = true ∧
          (pyLower (pos.getD "") = "ambos" ∨ pyLower (pos.getD "") = "both") then
        bothNote
      else "" := by
  unfold positionHint
  cases hst : strTruthy pos with
  | false => simp [hst, show ¬nimages = 1 by omega]
  | true => simp [hst, him]

/-! ## Claims -/

/-- C4: invoking extraction on a model response whose candidate list is empty
yields the no-candidates error, and `generate_lifestyle_photo` raises an error
whose message reports that Gemini returned no candidates and that the response
may have been blocked (a terminal failure: the single call's error propagates,
no retry exists in the code). -/
theorem C4_empty_candidates_blocked (inp : GenInput) (randEnv randAct templates : String)
    (hpaths : inp.garment_path ≠ []) :
    extractImage { candidates := [] } = .error noCandidatesMsg ∧
    (generate_lifestyle_photo inp randEnv randAct templates { candidates := [] }).result =
      .error { kind := .runtimeError, msg := "Failed to generate image: " ++ noCandidatesMsg } ∧
    strContains ("Failed to generate image: " ++ noCandidatesMsg) "returned no candidates" = true ∧
    strContains ("Failed to generate image: " ++ noCandidatesMsg) "may have been blocked" = true := by
  refine ⟨rfl, ?_, by decide, by decide⟩
  cases hp : inp.garment_path with
  | nil => exact absurd hp hpaths
  | cons p0 rest =>
    simp [generate_lifestyle_photo, hp, extractImage]

/-- C4 witness: a concrete call with one image and an empty-candidate response. -/
theorem C4_witness :
    (generate_lifestyle_photo { garment_path := [.path "saia.jpg"] } "park" "walking" ""
      { candidates := [] }).result =
      .error { kind := .runtimeError, msg := "Failed to generate image: " ++ noCandidatesMsg } :=
  (C4_empty_candidates_blocked { garment_path := [.path "saia.jpg"] } "park" "walking" ""
    (by decide)).2.1

/-- C5: the three decoding branches of response extraction (raw bytes,
base64-encoded string, protobuf byte-like object) all yield the same bitmap
content on equal underlying data. -/
theorem C5_extraction_branches_agree (d : List Nat) (hd : ∀ x ∈ d, x < 256) :
    decodePayload (.raw d) = some d ∧
    decodePayload (.bytelike d) = some d ∧
    decodePayload (.b64 (base64Encode d)) = some d :=
  ⟨rfl, rfl, base64_decode_encode d hd⟩

/-- C5 witness: the three branches agree on the concrete payload
`[0, 100, 255]`. -/
theorem C5_witness :
    decodePayload (.raw [0, 100, 255]) = some [0, 100, 255] ∧
    decodePayload (.bytelike [0, 100, 255]) = some [0, 100, 255] ∧
    decodePayload (.b64 (base64Encode [0, 100, 255])) = some [0, 100, 255] :=
  C5_extraction_branches_agree [0, 100, 255] (by decide)

/-- C6 counterexample: the empty string is an input whose lowercasing is not a
key of the normalization table, yet it does not pass through lowercased
unchanged — it yields the fallback literal `"piece"`. -/
theorem C6_counterexample :
    (TYPE_NORMALIZATION.lookup (pyLower "")).isNone = true ∧
    normalizeGarmentType (some "") ≠ pyLower "" := by
  decide

/-- C6 (amended): normalization is idempotent on every output value of the
normalization table, and every NON-EMPTY input whose lowercasing is not a key
of the table passes through lowercased unchanged (the empty input instead
yields the fallback literal `"piece"`). -/
theorem C6_normalization_idempotent :
    (∀ p ∈ TYPE_NORMALIZATION, normalizeGarmentType (some p.2) = p.2) ∧
    ∀ s : String, s ≠ "" → TYPE_NORMALIZATION.lookup (pyLower s) = none →
      normalizeGarmentType (some s) = pyLower s := by
  constructor
  · decide
  · intro s hs hl
    rw [normalize_some_eq s hs, hl]
    rfl

/-- C6 witness: idempotence at the table output `"saia"`, passthrough at the
unmapped non-empty input `"poncho"`. -/
theorem C6_witness :
    normalizeGarmentType (some "saia") = "saia" ∧
    normalizeGarmentType (some "poncho") = pyLower "poncho" :=
  ⟨C6_normalization_idempotent.1 ("saia", "saia") (by decide),
   C6_normalization_idempotent.2 "poncho" (by decide) (by decide)⟩

/-- C7: when the reference filename contains `"vestidodefesta"`
(case-insensitively) and no environment argument is supplied, the resolved
environment is `"a gala ballroom"` and the resolved activity is
`"holding a champagne glass"`, for every random draw from the configured
pools and every activity argument. -/
theorem C7_party_dress_override (fn : String) (act : Option String)
    (randEnv randAct : String)
    (hmark : strContains (pyLower fn) "vestidodefesta" = true) :
    resolveEnvAct fn none act randEnv randAct =
      ("a gala ballroom", "holding a champagne glass") := by
  simp [resolveEnvAct, hmark, strTruthy]

/-- C7 witness: the override fires on the concrete filename
`"VestidoDeFesta_07.jpg"` whatever the pools drew. -/
theorem C7_witness :
    resolveEnvAct "VestidoDeFesta_07.jpg" none (some "jogging") "a beach" "surfing" =
      ("a gala ballroom", "holding a champagne glass") :=
  C7_party_dress_override "VestidoDeFesta_07.jpg" (some "jogging") "a beach" "surfing"
    (by decide)

/-- C8: the output filename is a deterministic function of the garment
metadata — `"42"`/`"Saia"` yields `cabide_42_saia.png` and the conjunto
`"7"`/`Camisa`+`Calça` yields `cabide_conjunto_7-camisa-7-calca.png`, both at
the filename-derivation level and through a full successful pipeline run. -/
theorem C8_filename_determinism :
    buildOutputFilename "42" "Saia" none = "cabide_42_saia.png" ∧
    buildOutputFilename "7" "conjunto"
      (some { piece1_type := some "Camisa", piece2_type := some "Calça" }) =
      "cabide_conjunto_7-camisa-7-calca.png" ∧
    (generate_lifestyle_photo
      { garment_path := [.path "img.jpg"], garment_number := some "42",
        garment_type := some "Saia" }
      "park" "walking" "" { candidates := [{ image := some [0] }] }).result =
      .ok "cabide_42_saia.png" ∧
    (generate_lifestyle_photo
      { garment_path := [.path "a.jpg", .path "b.jpg"], garment_number := some "7",
        garment_type := some "conjunto",
        conjunto_pieces := some { piece1_type := some "Camisa", piece2_type := some "Calça" } }
      "park" "walking" "" { candidates := [{ image := some [0] }] }).result =
      .ok "cabide_conjunto_7-camisa-7-calca.png" := by
  decide

/-- C9: when the discriminator's template name has no matching
`## Template: <name>` header in the template document, `_load_template`
returns the empty string; the function is total, so no error is raised on a
missing section. -/
theorem C9_template_miss_silent (filename content : String)
    (h : firstIdx ("## Template: " ++ templateNameFor filename ++ "\n").toList
      content.toList = none) :
    loadTemplate filename content = "" := by
  unfold loadTemplate
  simp only []
  rw [h]

/-- C9 witness: a concrete document without any matching section. -/
theorem C9_witness :
    loadTemplate "dress.jpg" "# Not a template file\nJust prose.\n" = "" :=
  C9_template_miss_silent "dress.jpg" "# Not a template file\nJust prose.\n" (by decide)

/-- C1 counterexample: a call with `garment_number` missing (falsy) still
reaches the model — `modelCalled = true` — and only afterwards raises the
metadata `ValueError`, contradicting the claim that the generation call is
never made when a field is missing. -/
theorem C1_counterexample :
    strTruthy ({ garment_path := [.path "saia01.jpg"], garment_type := some "Saia" } :
      GenInput).garment_number = false ∧
    (generate_lifestyle_photo { garment_path := [.path "saia01.jpg"], garment_type := some "Saia" }
      "a park" "walking" "" { candidates := [{ image := some [1] }] }).modelCalled = true ∧
    (generate_lifestyle_photo { garment_path := [.path "saia01.jpg"], garment_type := some "Saia" }
      "a park" "walking" "" { candidates := [{ image := some [1] }] }).result =
      .error { kind := .valueError, msg := "Both garment_number and garment_type are required. Got: garment_number=None, garment_type=Saia" } := by
  decide

/-- C1 (amended): when `garment_number` or `garment_type` is absent, the call
never succeeds — it raises an error — but the rejection happens AFTER the
external model has been invoked: the generation call to the model is made
(the validation sits after response extraction, before filename derivation). -/
theorem C1_missing_metadata_error_after_model_call (inp : GenInput)
    (randEnv randAct templates : String) (resp : ModelResponse)
    (hpaths : inp.garment_path ≠ [])
    (hmiss : strTruthy inp.garment_number = false ∨ strTruthy inp.garment_type = false) :
    (generate_lifestyle_photo inp randEnv randAct templates resp).modelCalled = true ∧
    ∀ s, (generate_lifestyle_photo inp randEnv randAct templates resp).result ≠ .ok s := by
  cases hp : inp.garment_path with
  | nil => exact absurd hp hpaths
  | cons p0 rest =>
    cases hx : extractImage resp with
    | error m => simp [generate_lifestyle_photo, hp, hx]
    | ok img =>
      have hcond : (!strTruthy inp.garment_number || !strTruthy inp.garment_type) = true := by
        rcases hmiss with h | h <;> simp [h]
      simp [generate_lifestyle_photo, hp, hx, hcond]

/-- C1 witness: a concrete blob upload with no garment number. -/
theorem C1_witness :
    (generate_lifestyle_photo { garment_path := [.blob], garment_type := some "Vestido" }
      "beach" "reading" "" { candidates := [] }).modelCalled = true ∧
    ∀ s, (generate_lifestyle_photo { garment_path := [.blob], garment_type := some "Vestido" }
      "beach" "reading" "" { candidates := [] }).result ≠ .ok s :=
  C1_missing_metadata_error_after_model_call
    { garment_path := [.blob], garment_type := some "Vestido" }
    "beach" "reading" "" { candidates := [] } (by decide) (.inl (by decide))

/-- C2 counterexample: with one image and no conjunto, the English position
`"front"` produces NO note (the single-image map only knows `"frente"` and
`"costas"`), and for a conjunto input even `"frente"` produces no note. -/
theorem C2_counterexample :
    positionHint "" (some "front") 1 = "" ∧
    strContains
      (buildFinalPrompt "dress.jpg" (some "Saia") none none (some "front") none none none 1
        "a park" "walking"
        "## Template: Virtual Model Quotidien\nA model wearing a {{garment_type}} in {{environment}}, {{activity}}.\n")
      "front view" = false ∧
    positionHint (conjuntoHint (some "conjunto")
      (some { piece1_type := some "Blusa", piece2_type := some "Saia" })) (some "frente") 1 = "" := by
  decide

/-- C2 (amended): for a single-image input whose garment type does not
normalize to conjunto, a position lowercasing to `"frente"` puts the
front-view note in the assembled prompt and `"costas"` the back-view note;
an absent position, or any other value — including the English `"front"` and
`"back"` — appends no position note. -/
theorem C2_single_image_position (ref_filename : String) (gt env act : Option String)
    (pos : Option String) (cp : Option ConjuntoPieces)
    (ma : Option (List (String × String))) (fb : Option String)
    (randEnv randAct templates : String)
    (hnc : normalizeGarmentType gt ≠ "conjunto") :
    (∀ s, pos = some s → pyLower s = "frente" →
      positionHint (conjuntoHint gt cp) pos 1 =
        "\n\nNote: The image shows the front view of the garment." ∧
      strContains
        (buildFinalPrompt ref_filename gt env act pos cp ma fb 1 randEnv randAct templates)
        "\n\nNote: The image shows the front view of the garment." = true) ∧
    (∀ s, pos = some s → pyLower s = "costas" →
      positionHint (conjuntoHint gt cp) pos 1 =
        "\n\nNote: The image shows the back view of the garment." ∧
      strContains
        (buildFinalPrompt ref_filename gt env act pos cp ma fb 1 randEnv randAct templates)
        "\n\nNote: The image shows the back view of the garment." = true) ∧
    (pos = none → positionHint (conjuntoHint gt cp) pos 1 = "") ∧
    (∀ s, pos = some s → pyLower s ≠ "frente" → pyLower s ≠ "costas" →
      positionHint (conjuntoHint gt cp) pos 1 = "") := by
  have hch : conjuntoHint gt cp = "" := conjuntoHint_eq_empty cp hnc
  refine ⟨?_, ?_, ?_, ?_⟩
  · intro s hpos hfre
    subst hpos
    have hs : s ≠ "" := by
      intro h
      subst h
      exact absurd hfre (by decide)
    have hsb : (s == "") = false := by simpa using hs
    have hph0 : positionHint "" (some s) 1 =
        "\n\nNote: The image shows the front view of the garment." := by
      simp [positionHint, strTruthy, hsb, hfre]
    refine ⟨by rw [hch]; exact hph0, ?_⟩
    simp only [buildFinalPrompt]
    rw [hch, hph0]
    apply strContains_mono_right
    apply strContains_mono_right
    exact strContains_append_self_right _ _
  · intro s hpos hcos
    subst hpos
    have hs : s ≠ "" := by
      intro h
      subst h
      exact absurd hcos (by decide)
    have hsb : (s == "") = false := by simpa using hs
    have hlk : ([("frente", "front view"), ("costas", "back view")] :
        List (String × String)).lookup "costas" = some "back view" := by decide
    have hph0 : positionHint "" (some s) 1 =
        "\n\nNote: The image shows the back view of the garment." := by
      simp [positionHint, strTruthy, hsb, hcos, hlk]
    refine ⟨by rw [hch]; exact hph0, ?_⟩
    simp only [buildFinalPrompt]
    rw [hch, hph0]
    apply strContains_mono_right
    apply strContains_mono_right
    exact strContains_append_self_right _ _
  · intro hpos
    subst hpos
    rw [hch]
    simp [positionHint, strTruthy]
  · intro s hpos hnf hnc2
    subst hpos
    rw [hch]
    by_cases hs : s = ""
    · subst hs
      simp [positionHint, strTruthy]
    · have hsb : (s == "") = false := by simpa using hs
      have hlk : ([("frente", "front view"), ("costas", "back view")] :
          List (String × String)).lookup (pyLower s) = none := by
        have h1 : (pyLower s == "frente") = false := by simpa using hnf
        have h2 : (pyLower s == "costas") = false := by simpa using hnc2
        simp [List.lookup, h1, h2]
      simp [positionHint, strTruthy, hsb, hlk]

/-- C2 witness: `"Frente"` (capitalised) on a single non-conjunto image puts
the front-view note in the prompt. -/
theorem C2_witness :
    strContains
      (buildFinalPrompt "dress.jpg" (some "Saia") none none (some "Frente") none none none 1
        "a park" "walking"
        "## Template: Virtual Model Quotidien\nA model wearing a {{garment_type}} in {{environment}}, {{activity}}.\n")
      "\n\nNote: The image shows the front view of the garment." = true :=
  ((C2_single_image_position "dress.jpg" (some "Saia") none none (some "Frente") none none none
    "a park" "walking"
    "## Template: Virtual Model Quotidien\nA model wearing a {{garment_type}} in {{environment}}, {{activity}}.\n"
    (by decide)).1 "Frente" rfl (by decide)).2

/-- C3: whenever the garment type normalizes to `"conjunto"` and a truthy
`conjunto_pieces` mapping is supplied, the assembled prompt contains the
composition hint and each supplied piece name (piece3 when present), and no
position hint is produced, regardless of the position argument and the number
of images. -/
theorem C3_conjunto_composition (ref_filename : String) (gt env act pos : Option String)
    (cp : ConjuntoPieces) (ma : Option (List (String × String))) (fb : Option String)
    (nimages : Nat) (randEnv randAct templates : String)
    (hn : normalizeGarmentType gt = "conjunto") (hcp : cpTruthy (some cp) = true) :
    strContains
      (buildFinalPrompt ref_filename gt env act pos (some cp) ma fb nimages randEnv randAct
        templates) "CONJUNTO COMPOSITION" = true ∧
    (∀ p1, cp.piece1_type = some p1 →
      strContains
        (buildFinalPrompt ref_filename gt env act pos (some cp) ma fb nimages randEnv randAct
          templates) p1 = true) ∧
    (∀ p2, cp.piece2_type = some p2 →
      strContains
        (buildFinalPrompt ref_filename gt env act pos (some cp) ma fb nimages randEnv randAct
          templates) p2 = true) ∧
    (∀ p3, cp.piece3_type = some p3 →
      strContains
        (buildFinalPrompt ref_filename gt env act pos (some cp) ma fb nimages randEnv randAct
          templates) p3 = true) ∧
    positionHint (conjuntoHint gt (some cp)) pos nimages = "" := by
  obtain ⟨ht, hl⟩ := normalize_conjunto_elim hn
  have hch := conjuntoHint_eq gt cp ht hl hcp
  have hne : conjuntoHint gt (some cp) ≠ "" := by
    rw [hch]
    exact append_ne_empty_right _ _ (by decide)
  have hposhint : positionHint (conjuntoHint gt (some cp)) pos nimages = "" := by
    unfold positionHint
    rw [if_pos hne]
  have hinc : ∀ x : String, strContains (conjuntoHint gt (some cp)) x = true →
      strContains
        (buildFinalPrompt ref_filename gt env act pos (some cp) ma fb nimages randEnv randAct
          templates) x = true := by
    intro x hx
    simp only [buildFinalPrompt]
    apply strContains_mono_right
    apply strContains_mono_right
    apply strContains_mono_right
    exact strContains_mono_left _ hx
  refine ⟨?_, ?_, ?_, ?_, hposhint⟩
  · apply hinc
    rw [hch]
    apply strContains_mono_right
    split
    · apply strContains_mono_right
      apply strContains_mono_right
      apply strContains_mono_right
      apply strContains_mono_right
      apply strContains_mono_right
      decide
    · apply strContains_mono_right
      apply strContains_mono_right
      apply strContains_mono_right
      decide
  · intro p1 hp1
    apply hinc
    rw [hch]
    have hget : cpGet (some cp) (·.piece1_type) = p1 := by simp [cpGet, hp1]
    apply strContains_mono_right
    split
    · rw [hget]
      apply strContains_mono_right
      apply strContains_mono_right
      apply strContains_mono_right
      apply strContains_mono_right
      exact strContains_append_self_right _ _
    · rw [hget]
      apply strContains_mono_right
      apply strContains_mono_right
      exact strContains_append_self_right _ _
  · intro p2 hp2
    apply hinc
    rw [hch]
    have hget : cpGet (some cp) (·.piece2_type) = p2 := by simp [cpGet, hp2]
    apply strContains_mono_right
    split
    · rw [hget]
      apply strContains_mono_right
      apply strContains_mono_right
      exact strContains_append_self_right _ _
    · rw [hget]
      exact strContains_append_self_right _ _
  · intro p3 hp3
    have hget : cpGet (some cp) (·.piece3_type) = p3 := by simp [cpGet, hp3]
    by_cases h3 : p3 = ""
    · subst h3
      exact strContains_empty_needle _
    · apply hinc
      rw [hch]
      apply strContains_mono_right
      rw [if_pos (by rw [hget]; exact h3)]
      rw [hget]
      exact strContains_append_self_right _ _

/-- C3 witness: a concrete three-piece conjunto; the prompt names all three
pieces and no position hint is produced despite `position = "ambos"` and two
images. -/
theorem C3_witness :
    strContains
      (buildFinalPrompt "look.jpg" (some "Conjunto") none none (some "ambos")
        (some { piece1_type := some "Camisa", piece2_type := some "Calça",
                piece3_type := some "Veste" }) none none 2 "park" "walking" "")
      "Veste" = true ∧
    positionHint
      (conjuntoHint (some "Conjunto")
        (some { piece1_type := some "Camisa", piece2_type := some "Calça",
                piece3_type := some "Veste" })) (some "ambos") 2 = "" := by
  have h := C3_conjunto_composition "look.jpg" (some "Conjunto") none none (some "ambos")
    { piece1_type := some "Camisa", piece2_type := some "Calça", piece3_type := some "Veste" }
    none none 2 "park" "walking" "" (by decide) (by decide)
  exact ⟨h.2.2.2.1 "Veste" rfl, h.2.2.2.2⟩

/-- C10: for a non-conjunto garment type and more than one image, a position
hint is appended iff the position is truthy and lowercases to `"ambos"` or
`"both"`, in which case it is exactly the fixed two-image front/back note;
`"frente"`, `"costas"`, `"front"` and `"back"` all yield no hint. -/
theorem C10_multi_image_position (gt pos : Option String) (cp : Option ConjuntoPieces)
    (nimages : Nat) (hnc : normalizeGarmentType gt ≠ "conjunto") (him : 1 < nimages) :
    ((positionHint (conjuntoHint gt cp) pos nimages ≠ "") ↔
      (strTruthy pos = true ∧
        (pyLower (pos.getD "") = "ambos" ∨ pyLower (pos.getD "") = "both"))) ∧
    (∀ s, pos = some s → (pyLower s = "ambos" ∨ pyLower s = "both") →
      positionHint (conjuntoHint gt cp) pos nimages = bothNote) ∧
    (∀ s, pos = some s →
      (pyLower s = "frente" ∨ pyLower s = "costas" ∨ pyLower s = "front" ∨ pyLower s = "back") →
      positionHint (conjuntoHint gt cp) pos nimages = "") := by
  have hch : conjuntoHint gt cp = "" := conjuntoHint_eq_empty cp hnc
  rw [hch, positionHint_multi pos nimages him]
  refine ⟨?_, ?_, ?_⟩
  · by_cases hc : strTruthy pos = true ∧
        (pyLower (pos.getD "") = "ambos" ∨ pyLower (pos.getD "") = "both")
    · simp [hc]
      decide
    · simp [if_neg hc, hc]
  · intro s hpos hab
    subst hpos
    have hs : s ≠ "" := by
      intro h
      subst h
      rcases hab with h | h <;> exact absurd h (by decide)
    have hsb : (s == "") = false := by simpa using hs
    rw [if_pos ⟨by simp [strTruthy, hsb], by simpa using hab⟩]
  · intro s hpos hother
    subst hpos
    have hno : ¬(strTruthy (some s) = true ∧
        (pyLower ((some s).getD "") = "ambos" ∨ pyLower ((some s).getD "") = "both")) := by
      rintro ⟨-, hab⟩
      simp only [Option.getD_some] at hab
      rcases hother with h | h | h | h <;> rw [h] at hab <;>
        rcases hab with h2 | h2 <;> exact absurd h2 (by decide)
    rw [if_neg hno]

/-- C10 witness: `"Ambos"` with two images yields exactly the fixed note;
`"frente"` with two images yields none. -/
theorem C10_witness :
    positionHint (conjuntoHint (some "Saia") none) (some "Ambos") 2 = bothNote ∧
    positionHint (conjuntoHint (some "Saia") none) (some "frente") 2 = "" := by
  have h := C10_multi_image_position (some "Saia") (some "Ambos") none 2 (by decide) (by decide)
  have h2 := C10_multi_image_position (some "Saia") (some "frente") none 2 (by decide) (by decide)
  exact ⟨h.2.1 "Ambos" rfl (Or.inl (by decide)), h2.2.2 "frente" rfl (Or.inl (by decide))⟩

end Cabide
